import Mathlib

/-!
Shallow embedding of `src/include/cmsis_os2_static_alloc.h`.

The header consists of six C preprocessor macros; each one, given a logical
resource name and kind-specific sizing parameters, declares (at file scope)

  * zero or more backing-storage arrays (`name##_stack`, `name##_queue_mem`,
    `name##_mem`),
  * one control-block object (`name##_cb`),
  * one `const` attributes record (`name##_attributes`) initialised
    positionally.

We model a C identifier as a `String` (token pasting `name##_suffix` becomes
string append), a declared object as a `Region` (identifier, element count,
element size), and the positional initialiser of an attributes record as an
ordered `List FieldVal`.  The sizes of the opaque RTOS control-block types
(`StaticTask_t`, `StaticQueue_t`, …) and of `StackType_t` are
target-dependent constants, collected in a `SizeEnv` parameter.
-/

namespace CmsisStaticAlloc

/-- Target-dependent sizes (in bytes) of the opaque RTOS types used by the
macros: `StackType_t`, `StaticTask_t`, `StaticQueue_t`, `StaticSemaphore_t`,
`StaticTimer_t`, `StaticMemoryPool_t`. -/
structure SizeEnv where
  sizeofStackType : Nat
  sizeofStaticTask : Nat
  sizeofStaticQueue : Nat
  sizeofStaticSemaphore : Nat
  sizeofStaticTimer : Nat
  sizeofStaticMemoryPool : Nat
deriving DecidableEq, Repr

/-- Value of the CMSIS-RTOS2 `osMutexPrioInherit` attribute bit
(`0x00000002U` in the CMSIS-RTOS2 API). -/
def osMutexPrioInherit : Nat := 2

/-- One statically declared object: a C array `T ident[length]` (a plain
object `T ident;` is `length = 1`), with `elemSize = sizeof(T)`. -/
structure Region where
  ident : String
  length : Nat
  elemSize : Nat
deriving DecidableEq, Repr

/-- `sizeof` of the declared object: element count times element size. -/
def Region.sizeBytes (r : Region) : Nat := r.length * r.elemSize

/-- One value in the positional initialiser of an attributes record:
a string literal (`#name`), an integer constant, a pointer to a declared
object (named by its identifier), a `sizeof` value, or a priority value. -/
inductive FieldVal where
  | str (s : String)
  | num (n : Nat)
  | ref (ident : String)
  | size (n : Nat)
  | prio (p : Int)
deriving DecidableEq, Repr

/-- An attributes record: its identifier and its positional initialiser. -/
structure AttrRecord where
  ident : String
  fields : List FieldVal
deriving DecidableEq, Repr

/-- Output of `OS_THREAD_STATIC`: stack array, control block, attributes. -/
structure ThreadGen where
  stack : Region
  cb : Region
  attributes : AttrRecord
deriving DecidableEq, Repr

/-- Output of `OS_MESSAGE_QUEUE_STATIC` / `OS_MEMORY_POOL_STATIC`:
control block, backing byte array, attributes. -/
structure StorageGen where
  cb : Region
  mem : Region
  attributes : AttrRecord
deriving DecidableEq, Repr

/-- Output of `OS_MUTEX_STATIC` / `OS_SEMAPHORE_STATIC` / `OS_TIMER_STATIC`:
control block and attributes only (no backing storage array). -/
structure CbOnlyGen where
  cb : Region
  attributes : AttrRecord
deriving DecidableEq, Repr

/-- `OS_THREAD_STATIC(name, stack_words, priority_level)`:
`static StackType_t name##_stack[stack_words];`
`static StaticTask_t name##_cb;`
`static const osThreadAttr_t name##_attributes = { #name, 0, &name##_cb,
sizeof(name##_cb), name##_stack, sizeof(name##_stack),
(osPriority_t)(priority_level), 0, 0 };` -/
def OS_THREAD_STATIC (env : SizeEnv) (name : String) (stack_words : Nat)
    (priority_level : Int) : ThreadGen :=
  let stack : Region := ⟨name ++ "_stack", stack_words, env.sizeofStackType⟩
  let cb : Region := ⟨name ++ "_cb", 1, env.sizeofStaticTask⟩
  ⟨stack, cb,
    ⟨name ++ "_attributes",
      [FieldVal.str name, FieldVal.num 0, FieldVal.ref cb.ident,
       FieldVal.size cb.sizeBytes, FieldVal.ref stack.ident,
       FieldVal.size stack.sizeBytes, FieldVal.prio priority_level,
       FieldVal.num 0, FieldVal.num 0]⟩⟩

/-- `OS_MESSAGE_QUEUE_STATIC(name, queue_size, type)`:
`static StaticQueue_t name##_cb;`
`static uint8_t name##_queue_mem[(queue_size) * sizeof(type)];`
`static const osMessageQueueAttr_t name##_attributes = { #name, 0,
&name##_cb, sizeof(name##_cb), name##_queue_mem,
sizeof(name##_queue_mem) };`  (`sizeof_type` stands for `sizeof(type)`.) -/
def OS_MESSAGE_QUEUE_STATIC (env : SizeEnv) (name : String)
    (queue_size sizeof_type : Nat) : StorageGen :=
  let cb : Region := ⟨name ++ "_cb", 1, env.sizeofStaticQueue⟩
  let mem : Region := ⟨name ++ "_queue_mem", queue_size * sizeof_type, 1⟩
  ⟨cb, mem,
    ⟨name ++ "_attributes",
      [FieldVal.str name, FieldVal.num 0, FieldVal.ref cb.ident,
       FieldVal.size cb.sizeBytes, FieldVal.ref mem.ident,
       FieldVal.size mem.sizeBytes]⟩⟩

/-- `OS_MUTEX_STATIC(name)`:
`static StaticSemaphore_t name##_cb;`
`static const osMutexAttr_t name##_attributes = { #name, osMutexPrioInherit,
&name##_cb, sizeof(name##_cb) };` -/
def OS_MUTEX_STATIC (env : SizeEnv) (name : String) : CbOnlyGen :=
  let cb : Region := ⟨name ++ "_cb", 1, env.sizeofStaticSemaphore⟩
  ⟨cb,
    ⟨name ++ "_attributes",
      [FieldVal.str name, FieldVal.num osMutexPrioInherit,
       FieldVal.ref cb.ident, FieldVal.size cb.sizeBytes]⟩⟩

/-- `OS_SEMAPHORE_STATIC(name)`:
`static StaticSemaphore_t name##_cb;`
`static const osSemaphoreAttr_t name##_attributes = { #name, 0, &name##_cb,
sizeof(name##_cb) };` -/
def OS_SEMAPHORE_STATIC (env : SizeEnv) (name : String) : CbOnlyGen :=
  let cb : Region := ⟨name ++ "_cb", 1, env.sizeofStaticSemaphore⟩
  ⟨cb,
    ⟨name ++ "_attributes",
      [FieldVal.str name, FieldVal.num 0,
       FieldVal.ref cb.ident, FieldVal.size cb.sizeBytes]⟩⟩

/-- `OS_TIMER_STATIC(name)`:
`static StaticTimer_t name##_cb;`
`static const osTimerAttr_t name##_attributes = { #name, 0, &name##_cb,
sizeof(name##_cb) };` -/
def OS_TIMER_STATIC (env : SizeEnv) (name : String) : CbOnlyGen :=
  let cb : Region := ⟨name ++ "_cb", 1, env.sizeofStaticTimer⟩
  ⟨cb,
    ⟨name ++ "_attributes",
      [FieldVal.str name, FieldVal.num 0,
       FieldVal.ref cb.ident, FieldVal.size cb.sizeBytes]⟩⟩

/-- `OS_MEMORY_POOL_STATIC(name, pool_size, type)`:
`static StaticMemoryPool_t name##_cb;`
`static uint8_t name##_mem[(pool_size) * sizeof(type)];`
`static const osMemoryPoolAttr_t name##_attributes = { #name, 0, &name##_cb,
sizeof(name##_cb), name##_mem, sizeof(name##_mem) };` -/
def OS_MEMORY_POOL_STATIC (env : SizeEnv) (name : String)
    (pool_size sizeof_type : Nat) : StorageGen :=
  let cb : Region := ⟨name ++ "_cb", 1, env.sizeofStaticMemoryPool⟩
  let mem : Region := ⟨name ++ "_mem", pool_size * sizeof_type, 1⟩
  ⟨cb, mem,
    ⟨name ++ "_attributes",
      [FieldVal.str name, FieldVal.num 0, FieldVal.ref cb.ident,
       FieldVal.size cb.sizeBytes, FieldVal.ref mem.ident,
       FieldVal.size mem.sizeBytes]⟩⟩

/-- The six resource kinds the header provides a macro for. -/
inductive Kind where
  | thread
  | msgQueue
  | mutex
  | semaphore
  | timer
  | memPool
deriving DecidableEq, Repr

/-- A representative size environment (32-bit stack words, typical FreeRTOS
control-block sizes), used only to instantiate examples concretely. -/
def env0 : SizeEnv := ⟨4, 120, 80, 80, 48, 80⟩

/-- The identifiers a macro invocation declares, in source order, kind by
kind (`count`, `esize`, `p` feed the kind's sizing parameters and are
ignored by the kinds that do not take them). -/
def generatedIdents (env : SizeEnv) (k : Kind) (name : String)
    (count esize : Nat) (p : Int) : List String :=
  match k with
  | Kind.thread =>
      let g := OS_THREAD_STATIC env name count p
      [g.stack.ident, g.cb.ident, g.attributes.ident]
  | Kind.msgQueue =>
      let g := OS_MESSAGE_QUEUE_STATIC env name count esize
      [g.cb.ident, g.mem.ident, g.attributes.ident]
  | Kind.mutex =>
      let g := OS_MUTEX_STATIC env name
      [g.cb.ident, g.attributes.ident]
  | Kind.semaphore =>
      let g := OS_SEMAPHORE_STATIC env name
      [g.cb.ident, g.attributes.ident]
  | Kind.timer =>
      let g := OS_TIMER_STATIC env name
      [g.cb.ident, g.attributes.ident]
  | Kind.memPool =>
      let g := OS_MEMORY_POOL_STATIC env name count esize
      [g.cb.ident, g.mem.ident, g.attributes.ident]

/-- The identifier suffixes each kind's macro pastes onto the logical name,
in the same order as `generatedIdents`. -/
def identSuffixes : Kind → List String
  | Kind.thread => ["_stack", "_cb", "_attributes"]
  | Kind.msgQueue => ["_cb", "_queue_mem", "_attributes"]
  | Kind.mutex => ["_cb", "_attributes"]
  | Kind.semaphore => ["_cb", "_attributes"]
  | Kind.timer => ["_cb", "_attributes"]
  | Kind.memPool => ["_cb", "_mem", "_attributes"]

/-- The attributes record a macro invocation generates, kind by kind. -/
def generatedAttr (env : SizeEnv) (k : Kind) (name : String)
    (count esize : Nat) (p : Int) : AttrRecord :=
  match k with
  | Kind.thread => (OS_THREAD_STATIC env name count p).attributes
  | Kind.msgQueue => (OS_MESSAGE_QUEUE_STATIC env name count esize).attributes
  | Kind.mutex => (OS_MUTEX_STATIC env name).attributes
  | Kind.semaphore => (OS_SEMAPHORE_STATIC env name).attributes
  | Kind.timer => (OS_TIMER_STATIC env name).attributes
  | Kind.memPool => (OS_MEMORY_POOL_STATIC env name count esize).attributes

/-- The backing-storage region a macro invocation generates, when the kind
has one: the thread stack array, and the queue / memory-pool byte arrays.
The mutex, semaphore and timer macros declare only a control block. -/
def generatedStorage (env : SizeEnv) (k : Kind) (name : String)
    (count esize : Nat) (p : Int) : Option Region :=
  match k with
  | Kind.thread => some (OS_THREAD_STATIC env name count p).stack
  | Kind.msgQueue => some (OS_MESSAGE_QUEUE_STATIC env name count esize).mem
  | Kind.memPool => some (OS_MEMORY_POOL_STATIC env name count esize).mem
  | _ => none

/-- Claim C2 as stated, at one macro invocation: unless the kind is
semaphore, some generated backing-storage region has its identifier and its
size appear in the attributes record as storage reference and storage
size. -/
def claimC2At (env : SizeEnv) (k : Kind) (name : String)
    (count esize : Nat) (p : Int) : Prop :=
  k ≠ Kind.semaphore →
    ∃ r, generatedStorage env k name count esize p = some r ∧
      FieldVal.ref r.ident ∈ (generatedAttr env k name count esize p).fields ∧
      FieldVal.size r.sizeBytes ∈ (generatedAttr env k name count esize p).fields

/-- Modelled from the spec: the thread descriptor field order dictated by
the external RTOS ABI (the `osThreadAttr_t` layout is not part of this
repository) — "name, reserved field, control-block reference+size, stack
reference+size, priority, two reserved fields", reserved fields zero. -/
def threadAttrFieldOrderSpec (nm cbId : String) (cbSz : Nat)
    (stackId : String) (stackSz : Nat) (p : Int) : List FieldVal :=
  [FieldVal.str nm, FieldVal.num 0, FieldVal.ref cbId, FieldVal.size cbSz,
   FieldVal.ref stackId, FieldVal.size stackSz, FieldVal.prio p,
   FieldVal.num 0, FieldVal.num 0]

/-- Modelled from the spec: the queue descriptor field order dictated by
the external RTOS ABI (the `osMessageQueueAttr_t` layout is not part of
this repository) — "name, reserved field, control-block reference+size,
storage reference+size", reserved field zero. -/
def queueAttrFieldOrderSpec (nm cbId : String) (cbSz : Nat)
    (memId : String) (memSz : Nat) : List FieldVal :=
  [FieldVal.str nm, FieldVal.num 0, FieldVal.ref cbId, FieldVal.size cbSz,
   FieldVal.ref memId, FieldVal.size memSz]

theorem generatedIdents_eq_map (env : SizeEnv) (k : Kind) (name : String)
    (count esize : Nat) (p : Int) :
    generatedIdents env k name count esize p =
      (identSuffixes k).map (fun s => name ++ s) := by
  cases k <;> rfl

theorem append_right_cancel_str (n m s : String) (h : n ++ s = m ++ s) :
    n = m := by
  have hd : n.data ++ s.data = m.data ++ s.data := by
    have := congrArg String.data h
    simpa using this
  exact String.ext (List.append_cancel_right hd)

theorem append_ne_of_last_ne (n m s t : String) (hs : s.data ≠ [])
    (ht : t.data ≠ []) (hlast : s.data.getLast? ≠ t.data.getLast?) :
    n ++ s ≠ m ++ t := by
  intro h
  apply hlast
  have hd : n.data ++ s.data = m.data ++ t.data := by
    have := congrArg String.data h
    simpa using this
  calc s.data.getLast?
      = (n.data ++ s.data).getLast? :=
        (List.getLast?_append_of_ne_nil _ hs).symm
    _ = (m.data ++ t.data).getLast? := by rw [hd]
    _ = t.data.getLast? := List.getLast?_append_of_ne_nil _ ht

theorem qmem_suffix_eq (n m : String) (h : n ++ "_queue_mem" = m ++ "_mem") :
    m = n ++ "_queue" := by
  have hsplit : (n ++ "_queue") ++ "_mem" = m ++ "_mem" := by
    have hq : ("_queue" : String) ++ "_mem" = "_queue_mem" := by decide
    have ha : (n ++ "_queue") ++ "_mem" = n ++ ("_queue" ++ "_mem") := by
      apply String.ext
      have h1 := String.data_append (n ++ "_queue") "_mem"
      simp [String.data_append, List.append_assoc]
    rw [ha, hq]
    exact h
  exact (append_right_cancel_str _ _ _ hsplit).symm

/-- Claim C1: for every generated queue or memory-pool invocation with
element count `count` and element size `esize`, the backing storage array
has exactly `count * esize` bytes, and the storage-size attribute field
(position 5) reads exactly that value; in particular a queue `evt_q` of
capacity 8 with 4-byte elements yields a 32-byte storage region whose
storage-size field reads 32. -/
theorem queue_pool_storage_size_exact (env : SizeEnv) (nm : String)
    (count esize : Nat) :
    (OS_MESSAGE_QUEUE_STATIC env nm count esize).mem.sizeBytes =
      count * esize ∧
    (OS_MESSAGE_QUEUE_STATIC env nm count esize).attributes.fields.get? 5 =
      some (FieldVal.size (count * esize)) ∧
    (OS_MEMORY_POOL_STATIC env nm count esize).mem.sizeBytes =
      count * esize ∧
    (OS_MEMORY_POOL_STATIC env nm count esize).attributes.fields.get? 5 =
      some (FieldVal.size (count * esize)) ∧
    (OS_MESSAGE_QUEUE_STATIC env0 "evt_q" 8 4).mem.sizeBytes = 32 ∧
    (OS_MESSAGE_QUEUE_STATIC env0 "evt_q" 8 4).attributes.fields.get? 5 =
      some (FieldVal.size 32) := by
  refine ⟨?_, ?_, ?_, ?_, by decide, by decide⟩ <;>
    simp [OS_MESSAGE_QUEUE_STATIC, OS_MEMORY_POOL_STATIC, Region.sizeBytes]

/-- Claim C3: for every resource kind, the control-block reference field
(position 2) of the generated attributes record is the address of the
generated control block, and the control-block-size field (position 3) is
that control block's size; the control block's identifier is
`name ++ "_cb"`. -/
theorem control_block_fields_match (env : SizeEnv) (nm : String)
    (sw qs qe ps pe : Nat) (p : Int) :
    ((OS_THREAD_STATIC env nm sw p).cb.ident = nm ++ "_cb" ∧
      (OS_THREAD_STATIC env nm sw p).attributes.fields.get? 2 =
        some (FieldVal.ref (OS_THREAD_STATIC env nm sw p).cb.ident) ∧
      (OS_THREAD_STATIC env nm sw p).attributes.fields.get? 3 =
        some (FieldVal.size (OS_THREAD_STATIC env nm sw p).cb.sizeBytes)) ∧
    ((OS_MESSAGE_QUEUE_STATIC env nm qs qe).cb.ident = nm ++ "_cb" ∧
      (OS_MESSAGE_QUEUE_STATIC env nm qs qe).attributes.fields.get? 2 =
        some (FieldVal.ref (OS_MESSAGE_QUEUE_STATIC env nm qs qe).cb.ident) ∧
      (OS_MESSAGE_QUEUE_STATIC env nm qs qe).attributes.fields.get? 3 =
        some (FieldVal.size
          (OS_MESSAGE_QUEUE_STATIC env nm qs qe).cb.sizeBytes)) ∧
    ((OS_MUTEX_STATIC env nm).cb.ident = nm ++ "_cb" ∧
      (OS_MUTEX_STATIC env nm).attributes.fields.get? 2 =
        some (FieldVal.ref (OS_MUTEX_STATIC env nm).cb.ident) ∧
      (OS_MUTEX_STATIC env nm).attributes.fields.get? 3 =
        some (FieldVal.size (OS_MUTEX_STATIC env nm).cb.sizeBytes)) ∧
    ((OS_SEMAPHORE_STATIC env nm).cb.ident = nm ++ "_cb" ∧
      (OS_SEMAPHORE_STATIC env nm).attributes.fields.get? 2 =
        some (FieldVal.ref (OS_SEMAPHORE_STATIC env nm).cb.ident) ∧
      (OS_SEMAPHORE_STATIC env nm).attributes.fields.get? 3 =
        some (FieldVal.size (OS_SEMAPHORE_STATIC env nm).cb.sizeBytes)) ∧
    ((OS_TIMER_STATIC env nm).cb.ident = nm ++ "_cb" ∧
      (OS_TIMER_STATIC env nm).attributes.fields.get? 2 =
        some (FieldVal.ref (OS_TIMER_STATIC env nm).cb.ident) ∧
      (OS_TIMER_STATIC env nm).attributes.fields.get? 3 =
        some (FieldVal.size (OS_TIMER_STATIC env nm).cb.sizeBytes)) ∧
    ((OS_MEMORY_POOL_STATIC env nm ps pe).cb.ident = nm ++ "_cb" ∧
      (OS_MEMORY_POOL_STATIC env nm ps pe).attributes.fields.get? 2 =
        some (FieldVal.ref (OS_MEMORY_POOL_STATIC env nm ps pe).cb.ident) ∧
      (OS_MEMORY_POOL_STATIC env nm ps pe).attributes.fields.get? 3 =
        some (FieldVal.size
          (OS_MEMORY_POOL_STATIC env nm ps pe).cb.sizeBytes)) :=
  ⟨⟨rfl, rfl, rfl⟩, ⟨rfl, rfl, rfl⟩, ⟨rfl, rfl, rfl⟩,
   ⟨rfl, rfl, rfl⟩, ⟨rfl, rfl, rfl⟩, ⟨rfl, rfl, rfl⟩⟩

/-- Claim C4: the generated thread and queue positional initialisers
provide their values in exactly the field order the external RTOS ABI
dictates (as recorded in the spec): name, reserved, control-block
reference+size, stack/storage reference+size, then for threads priority
and two reserved fields. -/
theorem descriptor_field_order_matches_spec (env : SizeEnv) (nm : String)
    (sw : Nat) (p : Int) (qs qe : Nat) :
    (OS_THREAD_STATIC env nm sw p).attributes.fields =
      threadAttrFieldOrderSpec nm (nm ++ "_cb") env.sizeofStaticTask
        (nm ++ "_stack") (sw * env.sizeofStackType) p ∧
    (OS_MESSAGE_QUEUE_STATIC env nm qs qe).attributes.fields =
      queueAttrFieldOrderSpec nm (nm ++ "_cb") env.sizeofStaticQueue
        (nm ++ "_queue_mem") (qs * qe) := by
  constructor <;>
    simp [OS_THREAD_STATIC, OS_MESSAGE_QUEUE_STATIC,
      threadAttrFieldOrderSpec, queueAttrFieldOrderSpec, Region.sizeBytes]

/-- Claim C5: a thread generated with `stack_words` words and priority `p`
gets a stack array of exactly `stack_words` elements of stack-word size, a
priority field (position 6) equal to `p`, and zero in the reserved fields
(positions 1, 7 and 8); concretely, `worker` with a 256-word stack and
priority 24 gets a 256-word stack and priority field 24. -/
theorem thread_stack_priority_reserved (env : SizeEnv) (nm : String)
    (sw : Nat) (p : Int) :
    (OS_THREAD_STATIC env nm sw p).stack.length = sw ∧
    (OS_THREAD_STATIC env nm sw p).stack.elemSize = env.sizeofStackType ∧
    (OS_THREAD_STATIC env nm sw p).attributes.fields.get? 6 =
      some (FieldVal.prio p) ∧
    (OS_THREAD_STATIC env nm sw p).attributes.fields.get? 1 =
      some (FieldVal.num 0) ∧
    (OS_THREAD_STATIC env nm sw p).attributes.fields.get? 7 =
      some (FieldVal.num 0) ∧
    (OS_THREAD_STATIC env nm sw p).attributes.fields.get? 8 =
      some (FieldVal.num 0) ∧
    (OS_THREAD_STATIC env0 "worker" 256 24).stack.length = 256 ∧
    (OS_THREAD_STATIC env0 "worker" 256 24).attributes.fields.get? 6 =
      some (FieldVal.prio 24) :=
  ⟨rfl, rfl, rfl, rfl, rfl, rfl, rfl, rfl⟩

/-- Claim C7: in the mutex, semaphore and timer descriptors, the field
between the name (position 0) and the control-block reference (position 2)
is the kind-specific flag: `osMutexPrioInherit` for the mutex, and
reserved (zero) for the semaphore and the timer. -/
theorem flag_field_between_name_and_cb (env : SizeEnv) (nm : String) :
    (OS_MUTEX_STATIC env nm).attributes.fields.get? 0 =
      some (FieldVal.str nm) ∧
    (OS_MUTEX_STATIC env nm).attributes.fields.get? 1 =
      some (FieldVal.num osMutexPrioInherit) ∧
    (OS_MUTEX_STATIC env nm).attributes.fields.get? 2 =
      some (FieldVal.ref (nm ++ "_cb")) ∧
    (OS_SEMAPHORE_STATIC env nm).attributes.fields.get? 0 =
      some (FieldVal.str nm) ∧
    (OS_SEMAPHORE_STATIC env nm).attributes.fields.get? 1 =
      some (FieldVal.num 0) ∧
    (OS_SEMAPHORE_STATIC env nm).attributes.fields.get? 2 =
      some (FieldVal.ref (nm ++ "_cb")) ∧
    (OS_TIMER_STATIC env nm).attributes.fields.get? 0 =
      some (FieldVal.str nm) ∧
    (OS_TIMER_STATIC env nm).attributes.fields.get? 1 =
      some (FieldVal.num 0) ∧
    (OS_TIMER_STATIC env nm).attributes.fields.get? 2 =
      some (FieldVal.ref (nm ++ "_cb")) :=
  ⟨rfl, rfl, rfl, rfl, rfl, rfl, rfl, rfl, rfl⟩

/-- Claim C8: for every resource kind, the name field (position 0) of the
generated attributes record is the stringified form of the same logical
name from which every generated identifier is derived (the attributes
record itself is named `name ++ "_attributes"`). -/
theorem attr_name_is_logical_name (env : SizeEnv) (nm : String)
    (sw qs qe ps pe : Nat) (p : Int) :
    (OS_THREAD_STATIC env nm sw p).attributes.fields.get? 0 =
      some (FieldVal.str nm) ∧
    (OS_THREAD_STATIC env nm sw p).attributes.ident = nm ++ "_attributes" ∧
    (OS_MESSAGE_QUEUE_STATIC env nm qs qe).attributes.fields.get? 0 =
      some (FieldVal.str nm) ∧
    (OS_MESSAGE_QUEUE_STATIC env nm qs qe).attributes.ident =
      nm ++ "_attributes" ∧
    (OS_MUTEX_STATIC env nm).attributes.fields.get? 0 =
      some (FieldVal.str nm) ∧
    (OS_MUTEX_STATIC env nm).attributes.ident = nm ++ "_attributes" ∧
    (OS_SEMAPHORE_STATIC env nm).attributes.fields.get? 0 =
      some (FieldVal.str nm) ∧
    (OS_SEMAPHORE_STATIC env nm).attributes.ident = nm ++ "_attributes" ∧
    (OS_TIMER_STATIC env nm).attributes.fields.get? 0 =
      some (FieldVal.str nm) ∧
    (OS_TIMER_STATIC env nm).attributes.ident = nm ++ "_attributes" ∧
    (OS_MEMORY_POOL_STATIC env nm ps pe).attributes.fields.get? 0 =
      some (FieldVal.str nm) ∧
    (OS_MEMORY_POOL_STATIC env nm ps pe).attributes.ident =
      nm ++ "_attributes" :=
  ⟨rfl, rfl, rfl, rfl, rfl, rfl, rfl, rfl, rfl, rfl, rfl, rfl⟩

/-- Claim C9: the stack-size field (position 5) of a generated thread
descriptor is in bytes: `stack_words * sizeof(StackType_t)`, the size of
the declared stack array, even though the macro parameter counts words;
with 4-byte stack words a 256-word stack yields a field value of 1024. -/
theorem stack_size_in_bytes (env : SizeEnv) (nm : String) (sw : Nat)
    (p : Int) :
    (OS_THREAD_STATIC env nm sw p).attributes.fields.get? 5 =
      some (FieldVal.size (sw * env.sizeofStackType)) ∧
    (OS_THREAD_STATIC env nm sw p).stack.sizeBytes =
      sw * env.sizeofStackType ∧
    (OS_THREAD_STATIC env0 "worker" 256 24).attributes.fields.get? 5 =
      some (FieldVal.size 1024) :=
  ⟨rfl, rfl, rfl⟩

/-- Claim C10: the mutex macro takes only a name and always sets the
attribute-bits field (position 1) to the nonzero `osMutexPrioInherit`
value, while every other kind's attribute-bits field is always zero. -/
theorem mutex_prio_inherit_unconditional (env : SizeEnv) (nm : String)
    (sw qs qe ps pe : Nat) (p : Int) :
    (OS_MUTEX_STATIC env nm).attributes.fields.get? 1 =
      some (FieldVal.num osMutexPrioInherit) ∧
    osMutexPrioInherit ≠ 0 ∧
    (OS_THREAD_STATIC env nm sw p).attributes.fields.get? 1 =
      some (FieldVal.num 0) ∧
    (OS_MESSAGE_QUEUE_STATIC env nm qs qe).attributes.fields.get? 1 =
      some (FieldVal.num 0) ∧
    (OS_SEMAPHORE_STATIC env nm).attributes.fields.get? 1 =
      some (FieldVal.num 0) ∧
    (OS_TIMER_STATIC env nm).attributes.fields.get? 1 =
      some (FieldVal.num 0) ∧
    (OS_MEMORY_POOL_STATIC env nm ps pe).attributes.fields.get? 1 =
      some (FieldVal.num 0) :=
  ⟨rfl, by decide, rfl, rfl, rfl, rfl, rfl⟩

/-- Claim C2 counterexample: the mutex kind is not the semaphore kind, yet
a mutex invocation (here name `m`) generates no backing storage region at
all — only a control block — so its attributes record cannot contain a
matching storage reference and size. -/
theorem mutex_has_no_backing_storage :
    Kind.mutex ≠ Kind.semaphore ∧ ¬ claimC2At env0 Kind.mutex "m" 0 0 0 := by
  refine ⟨by decide, fun h => ?_⟩
  obtain ⟨r, hr, -, -⟩ := h (by decide)
  simp [generatedStorage] at hr

/-- Claim C2 amended: for the kinds that declare backing storage (thread,
message queue, memory pool), the attributes record's storage reference
(position 4) and storage size (position 5) match the generated storage
region exactly; the mutex, semaphore and timer descriptors consist of
exactly name, flag, control-block reference and control-block size — no
storage fields and, for the semaphore, no count fields. -/
theorem storage_fields_match_where_present (env : SizeEnv) (nm : String)
    (sw : Nat) (p : Int) (qs qe ps pe : Nat) :
    (OS_THREAD_STATIC env nm sw p).attributes.fields.get? 4 =
      some (FieldVal.ref (OS_THREAD_STATIC env nm sw p).stack.ident) ∧
    (OS_THREAD_STATIC env nm sw p).attributes.fields.get? 5 =
      some (FieldVal.size (OS_THREAD_STATIC env nm sw p).stack.sizeBytes) ∧
    (OS_MESSAGE_QUEUE_STATIC env nm qs qe).attributes.fields.get? 4 =
      some (FieldVal.ref (OS_MESSAGE_QUEUE_STATIC env nm qs qe).mem.ident) ∧
    (OS_MESSAGE_QUEUE_STATIC env nm qs qe).attributes.fields.get? 5 =
      some (FieldVal.size
        (OS_MESSAGE_QUEUE_STATIC env nm qs qe).mem.sizeBytes) ∧
    (OS_MEMORY_POOL_STATIC env nm ps pe).attributes.fields.get? 4 =
      some (FieldVal.ref (OS_MEMORY_POOL_STATIC env nm ps pe).mem.ident) ∧
    (OS_MEMORY_POOL_STATIC env nm ps pe).attributes.fields.get? 5 =
      some (FieldVal.size
        (OS_MEMORY_POOL_STATIC env nm ps pe).mem.sizeBytes) ∧
    (OS_MUTEX_STATIC env nm).attributes.fields =
      [FieldVal.str nm, FieldVal.num osMutexPrioInherit,
       FieldVal.ref (nm ++ "_cb"),
       FieldVal.size env.sizeofStaticSemaphore] ∧
    (OS_SEMAPHORE_STATIC env nm).attributes.fields =
      [FieldVal.str nm, FieldVal.num 0, FieldVal.ref (nm ++ "_cb"),
       FieldVal.size env.sizeofStaticSemaphore] ∧
    (OS_TIMER_STATIC env nm).attributes.fields =
      [FieldVal.str nm, FieldVal.num 0, FieldVal.ref (nm ++ "_cb"),
       FieldVal.size env.sizeofStaticTimer] := by
  refine ⟨rfl, rfl, rfl, rfl, rfl, rfl, ?_, ?_, ?_⟩ <;>
    simp [OS_MUTEX_STATIC, OS_SEMAPHORE_STATIC, OS_TIMER_STATIC,
      Region.sizeBytes]

/-- Claim C6 counterexample: the logical names `q` and `q_queue` are
distinct, yet a message queue named `q` and a memory pool named `q_queue`
both declare the storage identifier `q_queue_mem`, so their generated
identifier sets are not disjoint. -/
theorem queue_pool_ident_collision :
    "q" ≠ "q_queue" ∧
    ¬ List.Disjoint (generatedIdents env0 Kind.msgQueue "q" 8 4 0)
        (generatedIdents env0 Kind.memPool "q_queue" 8 4 0) := by
  refine ⟨by decide, fun h => ?_⟩
  exact h (show "q_queue_mem" ∈ _ by decide)
    (show "q_queue_mem" ∈ _ by decide)

/-- Claim C6 amended: two macro invocations with distinct logical names
generate pairwise distinct identifier sets, except in one case: a message
queue named `n` and a memory pool named `n ++ "_queue"` share the storage
identifier `n ++ "_queue_mem"`.  Excluding that queue/pool pairing, the
generated identifier lists are disjoint. -/
theorem idents_disjoint_of_ne (env : SizeEnv) (k1 k2 : Kind)
    (n1 n2 : String) (c1 e1 c2 e2 : Nat) (p1 p2 : Int)
    (hne : n1 ≠ n2)
    (h12 : ¬ (k1 = Kind.msgQueue ∧ k2 = Kind.memPool ∧
      n2 = n1 ++ "_queue"))
    (h21 : ¬ (k1 = Kind.memPool ∧ k2 = Kind.msgQueue ∧
      n1 = n2 ++ "_queue")) :
    List.Disjoint (generatedIdents env k1 n1 c1 e1 p1)
      (generatedIdents env k2 n2 c2 e2 p2) := by
  intro a ha hb
  rw [generatedIdents_eq_map] at ha hb
  obtain ⟨s1, hs1, rfl⟩ := List.mem_map.mp ha
  obtain ⟨s2, hs2, heq⟩ := List.mem_map.mp hb
  cases k1 <;> cases k2 <;>
    simp only [identSuffixes] at hs1 hs2 <;>
    fin_cases hs1 <;> fin_cases hs2 <;>
    first
      | exact hne ((append_right_cancel_str _ _ _ heq).symm)
      | exact absurd heq
          (append_ne_of_last_ne _ _ _ _ (by decide) (by decide) (by decide))
      | exact h12 ⟨rfl, rfl, qmem_suffix_eq _ _ heq.symm⟩
      | exact h21 ⟨rfl, rfl, qmem_suffix_eq _ _ heq⟩

/-- Witness for the amended Claim C6 at concrete inputs: a thread `worker`
and a message queue `evt_q` generate disjoint identifier sets. -/
theorem idents_disjoint_witness :
    List.Disjoint (generatedIdents env0 Kind.thread "worker" 256 0 24)
      (generatedIdents env0 Kind.msgQueue "evt_q" 8 4 0) :=
  idents_disjoint_of_ne env0 Kind.thread Kind.msgQueue "worker" "evt_q"
    256 0 8 4 24 0 (by decide) (by decide) (by decide)

end CmsisStaticAlloc
